import Mathlib

attribute [local semireducible] Rat.add Rat.sub Rat.mul Rat.inv Rat.ofScientific

set_option maxRecDepth 100000

/-!
Verification development for the LEXI housekeeping time-series dashboard
(`app.py`).  The data-preparation pipeline and the plot-update callback are
embedded shallowly: timestamps are integers (seconds since the epoch),
parameter values are rationals, a missing value (pandas NaN) is `none`.
-/

/-- One telemetry row: a timestamp (the parsed `Date` column, seconds since
the epoch) plus the row's named parameter values.  A parameter absent from
the row corresponds to a pandas NaN after column alignment. -/
structure Record where
  time : Int
  values : List (String × ℚ)
deriving DecidableEq, Repr

/-- One parsed CSV file: its non-`Date` column names and its rows. -/
structure Table where
  cols : List String
  rows : List Record
deriving DecidableEq, Repr

/-- The assembled process-wide table: non-`Date` columns (union over files,
in order of first appearance, as `pd.concat` aligns them) and all rows in
concatenation order (`pd.concat(..., ignore_index=True)` followed by
`set_index("Date")`, which does not sort). -/
structure Dataset where
  cols : List String
  rows : List Record
deriving DecidableEq, Repr

/-- Column union in order of first appearance, as `pd.concat` aligns
heterogeneous column sets. -/
def unionCols (acc : List String) (cs : List String) : List String :=
  cs.foldl (fun a c => if c ∈ a then a else a ++ [c]) acc

/-- `prepare_data` assembly step:
`df = pd.concat([...], ignore_index=True); df.set_index("Date")`.
`pd.concat` raises `ValueError: No objects to concatenate` on an empty
sequence; otherwise rows are concatenated in input order (no sorting). -/
def assemble (tables : List Table) : Except String Dataset :=
  match tables with
  | [] => Except.error "ValueError: No objects to concatenate"
  | _ =>
    Except.ok
      { cols := tables.foldl (fun a t => unionCols a t.cols) []
        rows := (tables.map Table.rows).flatten }

/-- `mask = (df.index >= start_date) & (df.index <= end_date); df[mask]` —
the inclusive range mask of `update_plot`. -/
def filterRange (rows : List Record) (sd ed : Int) : List Record :=
  rows.filter (fun r => decide (sd ≤ r.time) && decide (r.time ≤ ed))

/-- Calendar day of a timestamp: floor division by 86400 seconds, matching
the day bins of `resample("D")` (UTC midnight boundaries). -/
def dayOf (t : Int) : Int := Int.fdiv t 86400

/-- Minimum timestamp of a row list (0 for the empty list, unused there). -/
def minTime : List Record → Int
  | [] => 0
  | r :: rs => rs.foldl (fun a x => min a x.time) r.time

/-- Maximum timestamp of a row list (0 for the empty list, unused there). -/
def maxTime : List Record → Int
  | [] => 0
  | r :: rs => rs.foldl (fun a x => max a x.time) r.time

/-- The day bins produced by `resample("D")`: every calendar day from the
day of the earliest index entry through the day of the latest, inclusive —
including days with no rows. -/
def dayKeys (rows : List Record) : List Int :=
  match rows with
  | [] => []
  | _ :: _ =>
    (List.range ((dayOf (maxTime rows) - dayOf (minTime rows)).toNat + 1)).map
      (fun (i : Nat) => dayOf (minTime rows) + (i : Int))

/-- The selected parameter's non-NaN values falling on day `d` (pandas
aggregations skip NaN). -/
def dayValues (rows : List Record) (param : String) (d : Int) : List ℚ :=
  (rows.filter (fun r => decide (dayOf r.time = d))).filterMap
    (fun r => List.lookup param r.values)

/-- Insert into a sorted list (ascending). -/
def insertSorted (x : ℚ) : List ℚ → List ℚ
  | [] => [x]
  | y :: ys => if x ≤ y then x :: y :: ys else y :: insertSorted x ys

/-- Insertion sort, ascending — the order statistics underlying
`Series.quantile`. -/
def sortVals : List ℚ → List ℚ
  | [] => []
  | x :: xs => insertSorted x (sortVals xs)

/-- `Series.quantile(q)` with the default linear interpolation between
order statistics: position `h = q * (n - 1)`, result
`y[floor h] + (h - floor h) * (y[floor h + 1] - y[floor h])` (upper index
clamped to `n - 1`).  An empty series yields NaN (`none`).
`median` equals `quantile 0.5`. -/
def quantile (vs : List ℚ) (q : ℚ) : Option ℚ :=
  match sortVals vs with
  | [] => none
  | y :: ys =>
    let n := (y :: ys).length
    let pos : ℚ := q * ((n : ℚ) - 1)
    let i : Nat := (Rat.floor pos).toNat
    let j : Nat := min (i + 1) (n - 1)
    let frac : ℚ := pos - (i : ℚ)
    some ((y :: ys).getD i 0 + frac * ((y :: ys).getD j 0 - (y :: ys).getD i 0))

/-- One row of the `daily_stats` frame: the day bin and the three
aggregates (`none` is pandas NaN, produced when the bin has no non-NaN
value). -/
structure DailyStat where
  day : Int
  median : Option ℚ
  p10 : Option ℚ
  p90 : Option ℚ
deriving DecidableEq, Repr

/-- The aggregates of one day bin: median and the 0.1 / 0.9 quantiles of
the day's non-NaN values. -/
def mkDailyStat (rows : List Record) (param : String) (d : Int) : DailyStat :=
  { day := d
    median := quantile (dayValues rows param d) (1 / 2)
    p10 := quantile (dayValues rows param d) (1 / 10)
    p90 := quantile (dayValues rows param d) (9 / 10) }

/-- `filtered_df[param].resample("D").agg(["median", q(0.1), q(0.9)])`:
one row per day bin from the earliest to the latest filtered timestamp,
each aggregating that day's non-NaN values. -/
def dailyStats (rows : List Record) (param : String) : List DailyStat :=
  (dayKeys rows).map (mkDailyStat rows param)

/-- A plotly scatter trace, reduced to the data the claims speak about:
x values (timestamps) and y values (`none` is NaN). -/
structure Trace where
  x : List Int
  y : List (Option ℚ)
deriving DecidableEq, Repr

/-- The error-bar trace: markers plus the two asymmetric whisker arrays
(`error_y.array` and `error_y.arrayminus`). -/
structure ErrTrace where
  x : List Int
  y : List (Option ℚ)
  errArray : List (Option ℚ)
  errArrayminus : List (Option ℚ)
deriving DecidableEq, Repr

/-- The figure returned by `update_plot`: the raw line trace, the daily
median markers and the error-bar trace. -/
structure ChartSpec where
  raw : Trace
  avg : Trace
  err : ErrTrace
deriving DecidableEq, Repr

/-- `daily_stats["date"] + pd.Timedelta(hours=12)`: the resample bin start
(midnight of day `d`) shifted by 12 hours. -/
def plotTime (d : Int) : Int := d * 86400 + 43200

/-- Elementwise Series subtraction: NaN (`none`) propagates. -/
def subOpt : Option ℚ → Option ℚ → Option ℚ
  | some a, some b => some (a - b)
  | _, _ => none

/-- The `update_plot` callback.  Filters by the inclusive range mask, then
builds the three traces.  `filtered_df[selected_param]` raises `KeyError`
when the selected parameter is not a column of the DataFrame; nothing else
in the callback raises. -/
def updatePlot (ds : Dataset) (param : String) (sd ed : Int) :
    Except String ChartSpec :=
  let filtered := filterRange ds.rows sd ed
  if param ∈ ds.cols then
    let stats := dailyStats filtered param
    Except.ok
      { raw :=
          { x := filtered.map (fun r => r.time)
            y := filtered.map (fun r => List.lookup param r.values) }
        avg :=
          { x := stats.map (fun s => plotTime s.day)
            y := stats.map (fun s => s.median) }
        err :=
          { x := stats.map (fun s => plotTime s.day)
            y := stats.map (fun s => s.median)
            errArray := stats.map (fun s => subOpt s.median s.p10)
            errArrayminus := stats.map (fun s => subOpt s.p90 s.median) } }
  else Except.error "KeyError"

/-!
File Locator.  Both variants are modelled at the level of a single file
name (the remote variant filters `file["name"]`; the local variant's glob
and exclusion regex are applied to path components whose final component
is the file name).
-/

/-- Consume a literal from the front of a character list (one regex/glob
literal step); `none` when it does not match. -/
def consumeLit (lit : List Char) (cs : List Char) : Option (List Char) :=
  if lit.isPrefixOf cs then some (cs.drop lit.length) else none

/-- Consume one or more digits (regex `\d+`), maximal munch.  Because a
digit can never match the following literal underscore, maximal munch is
equivalent to the backtracking semantics here. -/
def consumeDigits1 (cs : List Char) : Option (List Char) :=
  match cs with
  | [] => none
  | c :: rest => if c.isDigit then some (rest.dropWhile Char.isDigit) else none

/-- Consume one arbitrary character — the unescaped `.` of the pattern. -/
def consumeAny (cs : List Char) : Option (List Char) :=
  match cs with
  | [] => none
  | _ :: rest => some rest

/-- Match `payload_lexi_\d+_\d+_\d+_\d+_hk_output.csv` at the head of the
list (the tail after the match is unconstrained, as with `re.search`). -/
def matchFourFieldAt (cs : List Char) : Bool :=
  (do
    let s ← consumeLit "payload_lexi_".data cs
    let s ←
      consumeDigits1 s
    let s ← consumeLit "_".data s
    let s ← consumeDigits1 s
    let s ← consumeLit "_".data s
    let s ← consumeDigits1 s
    let s ← consumeLit "_".data s
    let s ← consumeDigits1 s
    let s ← consumeLit "_hk_output".data s
    let s ← consumeAny s
    let _ ← consumeLit "csv".data s
    pure ()).isSome

/-- Scan helper for `re.search`: try the pattern at every suffix. -/
def fourFieldSearchAux : List Char → Bool
  | [] => false
  | c :: cs => matchFourFieldAt (c :: cs) || fourFieldSearchAux cs

/-- `re.compile(r"payload_lexi_\d+_\d+_\d+_\d+_hk_output.csv").search(name)`
is not `none`. -/
def fourFieldSearch (name : String) : Bool :=
  fourFieldSearchAux name.data

/-- Python `str.endswith`, on the character list. -/
def endsWithStr (suffix : String) (name : String) : Bool :=
  suffix.data.isSuffixOf name.data

/-- The remote (Drive) File Locator keep-predicate, from
`prepare_data_from_drive`: keep names ending in `hk_output.csv` that the
exclusion regex does not match. -/
def driveKeep (name : String) : Bool :=
  endsWithStr "hk_output.csv" name && !fourFieldSearch name

/-- Glob match of a file name against `payload_lexi_*_*_hk_output.csv`.
A name matches iff it decomposes as
`"payload_lexi_" ++ s1 ++ "_" ++ s2 ++ "_hk_output.csv"`; equivalently:
the fixed prefix and the fixed suffix are present and disjoint, and the
part strictly between them contains an underscore. -/
def localGlobMatch (name : String) : Bool :=
  let cs := name.data
  let pre := "payload_lexi_".data
  let suf := "_hk_output.csv".data
  pre.isPrefixOf cs && suf.isSuffixOf cs &&
    decide (pre.length + suf.length < cs.length) &&
    ((cs.drop pre.length).take (cs.length - pre.length - suf.length)).contains
      (Char.ofNat 95)

/-- The local File Locator keep-predicate, from `prepare_data`: glob match
against `payload_lexi_*_*_hk_output.csv`, then the same exclusion regex. -/
def localKeep (name : String) : Bool :=
  localGlobMatch name && !fourFieldSearch name

/-!
Credential-file resolution in `prepare_data_from_drive`.
-/

/-- `os.environ.get(k)`: total dictionary lookup, `None` when absent —
it does not raise for a missing key. -/
def envGet (env : List (String × String)) (k : String) : Option String :=
  List.lookup k env

/-- The `try` body: `os.environ.get("GOOGLE_SERVICE_ACCOUNT_FILE")`.
Being a total lookup it always succeeds, so it is embedded as an
`Except` value that is always `ok`. -/
def readServiceAccountVar (env : List (String × String)) :
    Except String (Option String) :=
  Except.ok (envGet env "GOOGLE_SERVICE_ACCOUNT_FILE")

/-- What the `try/except` resolved: the value handed to
`Credentials.from_service_account_file`, and whether the `except` branch
(the bundled local key file) was taken. -/
structure CredSource where
  file : Option String
  usedLocalFallback : Bool
deriving DecidableEq, Repr

/-- The `try/except` of `prepare_data_from_drive` lines 40-46: on success
the environment value (possibly `None`) is used; only on an exception
would the bundled local key file be substituted. -/
def resolveServiceAccountFile (env : List (String × String)) : CredSource :=
  match readServiceAccountVar env with
  | Except.ok v => { file := v, usedLocalFallback := false }
  | Except.error _ =>
      { file := some "lexi-time-series-2f0841418a28.json"
        usedLocalFallback := true }

/-!
Views on query results, used to state results about the produced figure
(`Except` carries no decidable equality here, so fields are projected).
On an error the projections return `[]`.
-/

/-- x values of the raw line trace of a query result. -/
def chartRawX (e : Except String ChartSpec) : List Int :=
  match e with
  | Except.ok c => c.raw.x
  | Except.error _ => []

/-- y values of the raw line trace of a query result. -/
def chartRawY (e : Except String ChartSpec) : List (Option ℚ) :=
  match e with
  | Except.ok c => c.raw.y
  | Except.error _ => []

/-- x values of the daily-median marker trace of a query result. -/
def chartAvgX (e : Except String ChartSpec) : List Int :=
  match e with
  | Except.ok c => c.avg.x
  | Except.error _ => []

/-- x values of the error-bar trace of a query result. -/
def chartErrX (e : Except String ChartSpec) : List Int :=
  match e with
  | Except.ok c => c.err.x
  | Except.error _ => []

/-- `error_y.array` of the error-bar trace of a query result. -/
def chartErrArray (e : Except String ChartSpec) : List (Option ℚ) :=
  match e with
  | Except.ok c => c.err.errArray
  | Except.error _ => []

/-- `error_y.arrayminus` of the error-bar trace of a query result. -/
def chartErrArrayminus (e : Except String ChartSpec) : List (Option ℚ) :=
  match e with
  | Except.ok c => c.err.errArrayminus
  | Except.error _ => []

/-- The timestamp sequence of an assembly result (empty on error). -/
def assembledTimes (tables : List Table) : List Int :=
  match assemble tables with
  | Except.ok d => d.rows.map (fun r => r.time)
  | Except.error _ => []

/-- Ascending (non-strict) order of a timestamp sequence. -/
def isMonotone : List Int → Bool
  | [] => true
  | [_] => true
  | a :: b :: rest => decide (a ≤ b) && isMonotone (b :: rest)

/-!
Concrete fixtures used by counterexamples and witnesses.
-/

/-- A one-row file whose record is at t = 5. -/
def fileA : Table := { cols := ["P"], rows := [{ time := 5, values := [("P", 1)] }] }

/-- A one-row file whose record is at t = 3, earlier than every record of
`fileA`. -/
def fileB : Table := { cols := ["P"], rows := [{ time := 3, values := [("P", 2)] }] }

/-- Ten records on day 0 with values 1..10 for parameter P. -/
def tenValueDayRows : List Record :=
  [{ time := 0, values := [("P", 1)] },
   { time := 60, values := [("P", 2)] },
   { time := 120, values := [("P", 3)] },
   { time := 180, values := [("P", 4)] },
   { time := 240, values := [("P", 5)] },
   { time := 300, values := [("P", 6)] },
   { time := 360, values := [("P", 7)] },
   { time := 420, values := [("P", 8)] },
   { time := 480, values := [("P", 9)] },
   { time := 540, values := [("P", 10)] }]

/-- One record on day 0 and one on day 2; day 1 has no records. -/
def twoDayGapRows : List Record :=
  [{ time := 0, values := [("P", 1)] },
   { time := 172800, values := [("P", 2)] }]

/-- A dataset whose only column is A. -/
def colADataset : Dataset :=
  { cols := ["A"], rows := [{ time := 0, values := [("A", 1)] }] }

/-- A dataset with column P and no rows. -/
def emptyRowsDataset : Dataset := { cols := ["P"], rows := [] }

/-- The empty Dataset in the sense of the design: no rows, no columns. -/
def emptyDataset : Dataset := { cols := [], rows := [] }

/-- One record during calendar day 2024-01-01 (01:00:00 UTC, epoch seconds
1704070800; the day starts at 1704067200 = 19723 * 86400). -/
def janFirstDataset : Dataset :=
  { cols := ["P"], rows := [{ time := 1704070800, values := [("P", 7)] }] }

/-!
Helper lemmas.
-/

theorem mem_filterRange {rows : List Record} {sd ed : Int} {r : Record} :
    r ∈ filterRange rows sd ed ↔ r ∈ rows ∧ sd ≤ r.time ∧ r.time ≤ ed := by
  simp [filterRange, List.mem_filter]

theorem filterRange_eq_nil_of_lt (rows : List Record) {sd ed : Int}
    (h : ed < sd) : filterRange rows sd ed = [] := by
  refine List.filter_eq_nil_iff.mpr (fun r _ => ?_)
  simp only [Bool.and_eq_true, decide_eq_true_eq, not_and]
  omega

theorem insertSorted_ne_nil (x : ℚ) (l : List ℚ) : insertSorted x l ≠ [] := by
  cases l with
  | nil => simp [insertSorted]
  | cons y ys =>
    unfold insertSorted
    split <;> simp

theorem sortVals_eq_nil_iff (l : List ℚ) : sortVals l = [] ↔ l = [] := by
  cases l with
  | nil => simp [sortVals]
  | cons x xs =>
    simp only [sortVals]
    constructor
    · intro h
      exact absurd h (insertSorted_ne_nil x (sortVals xs))
    · intro h
      cases h

theorem quantile_nil (q : ℚ) : quantile [] q = none := rfl

theorem quantile_isSome {vs : List ℚ} (h : vs ≠ []) (q : ℚ) :
    (quantile vs q).isSome = true := by
  rcases hs : sortVals vs with _ | ⟨y, ys⟩
  · exact absurd ((sortVals_eq_nil_iff vs).mp hs) h
  · unfold quantile
    rw [hs]
    rfl

theorem foldl_min_le (l : List Record) (a : Int) :
    l.foldl (fun x y => min x y.time) a ≤ a := by
  induction l generalizing a with
  | nil => exact le_refl a
  | cons r rs ih =>
    exact le_trans (ih (min a r.time)) (min_le_left a r.time)

theorem le_foldl_max (l : List Record) (a : Int) :
    a ≤ l.foldl (fun x y => max x y.time) a := by
  induction l generalizing a with
  | nil => exact le_refl a
  | cons r rs ih =>
    exact le_trans (le_max_left a r.time) (ih (max a r.time))

theorem foldl_min_le_mem {l : List Record} {r : Record} (hr : r ∈ l)
    (a : Int) : l.foldl (fun x y => min x y.time) a ≤ r.time := by
  induction l generalizing a with
  | nil => cases hr
  | cons s ss ih =>
    rcases List.mem_cons.mp hr with h | h
    · subst h
      exact le_trans (foldl_min_le ss (min a r.time)) (min_le_right a r.time)
    · exact ih h (min a s.time)

theorem mem_le_foldl_max {l : List Record} {r : Record} (hr : r ∈ l)
    (a : Int) : r.time ≤ l.foldl (fun x y => max x y.time) a := by
  induction l generalizing a with
  | nil => cases hr
  | cons s ss ih =>
    rcases List.mem_cons.mp hr with h | h
    · subst h
      exact le_trans (le_max_right a r.time) (le_foldl_max ss (max a r.time))
    · exact ih h (max a s.time)

theorem minTime_le {rows : List Record} {r : Record} (h : r ∈ rows) :
    minTime rows ≤ r.time := by
  cases rows with
  | nil => cases h
  | cons s ss =>
    rcases List.mem_cons.mp h with h1 | h1
    · subst h1
      exact foldl_min_le ss r.time
    · exact foldl_min_le_mem h1 s.time

theorem le_maxTime {rows : List Record} {r : Record} (h : r ∈ rows) :
    r.time ≤ maxTime rows := by
  cases rows with
  | nil => cases h
  | cons s ss =>
    rcases List.mem_cons.mp h with h1 | h1
    · subst h1
      exact le_foldl_max ss r.time
    · exact mem_le_foldl_max h1 s.time

theorem minTime_le_maxTime {rows : List Record} (h : rows ≠ []) :
    minTime rows ≤ maxTime rows := by
  cases rows with
  | nil => exact absurd rfl h
  | cons s ss =>
    exact le_trans (minTime_le (List.mem_cons_self s ss))
      (le_maxTime (List.mem_cons_self s ss))

theorem dayOf_mono {a b : Int} (h : a ≤ b) : dayOf a ≤ dayOf b := by
  unfold dayOf
  rw [Int.fdiv_eq_ediv a (by norm_num), Int.fdiv_eq_ediv b (by norm_num)]
  omega

theorem mem_dayKeys {rows : List Record} (h : rows ≠ []) (d : Int) :
    d ∈ dayKeys rows ↔
      dayOf (minTime rows) ≤ d ∧ d ≤ dayOf (maxTime rows) := by
  cases rows with
  | nil => exact absurd rfl h
  | cons s ss =>
    have hmono : dayOf (minTime (s :: ss)) ≤ dayOf (maxTime (s :: ss)) :=
      dayOf_mono (minTime_le_maxTime (by simp))
    have e : dayKeys (s :: ss) =
        (List.range
          ((dayOf (maxTime (s :: ss)) - dayOf (minTime (s :: ss))).toNat +
            1)).map
          (fun (i : Nat) => dayOf (minTime (s :: ss)) + (i : Int)) := rfl
    rw [e]
    constructor
    · intro hd
      rcases List.mem_map.mp hd with ⟨i, hi, hid⟩
      rw [List.mem_range] at hi
      subst hid
      constructor <;> omega
    · rintro ⟨h1, h2⟩
      refine List.mem_map.mpr
        ⟨(d - dayOf (minTime (s :: ss))).toNat, ?_, ?_⟩
      · rw [List.mem_range]
        omega
      · omega

theorem dayValues_eq_nil_of_no_record {rows : List Record} {param : String}
    {d : Int} (h : ∀ r ∈ rows, dayOf r.time ≠ d) :
    dayValues rows param d = [] := by
  unfold dayValues
  have hf : rows.filter (fun r => decide (dayOf r.time = d)) = [] := by
    refine List.filter_eq_nil_iff.mpr (fun r hr => ?_)
    simp only [decide_eq_true_eq]
    exact h r hr
  rw [hf]
  rfl

/-!
Claim theorems.
-/

/-- C5: the range filter of `update_plot` selects exactly the records with
`start <= timestamp <= end` — records at either bound are included, a
record one unit outside either bound is excluded — and an inverted range
(`start > end`) yields the empty selection, not an error. -/
theorem range_filter_inclusive_mask (rows : List Record) (sd ed : Int) :
    (∀ r : Record, r ∈ filterRange rows sd ed ↔
      r ∈ rows ∧ sd ≤ r.time ∧ r.time ≤ ed) ∧
    (ed < sd → filterRange rows sd ed = []) :=
  ⟨fun _ => mem_filterRange, filterRange_eq_nil_of_lt rows⟩

/-- C5 witness: a record exactly at both bounds is kept, and an inverted
range yields the empty selection. -/
theorem range_filter_inclusive_mask_witness :
    ({ time := 5, values := [("P", (1 : ℚ))] } : Record) ∈
      filterRange fileA.rows 5 5 ∧
    filterRange fileA.rows 10 3 = [] :=
  ⟨((range_filter_inclusive_mask fileA.rows 5 5).1 _).mpr
      ⟨by decide, by decide, by decide⟩,
   (range_filter_inclusive_mask fileA.rows 10 3).2 (by decide)⟩

/-- C6: for a single day whose parameter values are 1..10, the daily
aggregates are exactly median 5.5, 10th percentile 1.9 and 90th
percentile 9.1 (linear interpolation between order statistics). -/
theorem daily_stats_ten_values :
    dailyStats tenValueDayRows "P" =
      [{ day := 0, median := some (11 / 2), p10 := some (19 / 10),
         p90 := some (91 / 10) }] := by
  decide

/-- C7: in the error-bar trace of the produced chart, the default (plus)
arm is that day's median minus its 10th percentile, and the minus arm is
the 90th percentile minus the median, for every day. -/
theorem error_bar_arm_convention (ds : Dataset) (param : String)
    (sd ed : Int) (h : param ∈ ds.cols) :
    chartErrArray (updatePlot ds param sd ed) =
      (dailyStats (filterRange ds.rows sd ed) param).map
        (fun s => subOpt s.median s.p10) ∧
    chartErrArrayminus (updatePlot ds param sd ed) =
      (dailyStats (filterRange ds.rows sd ed) param).map
        (fun s => subOpt s.p90 s.median) := by
  constructor <;> simp [updatePlot, chartErrArray, chartErrArrayminus, h]

/-- C7 witness: for a one-record day the median and both percentiles
coincide, so both whisker arms are zero. -/
theorem error_bar_arm_convention_witness :
    chartErrArray (updatePlot janFirstDataset "P" 0 1704153600) =
      [some 0] ∧
    chartErrArrayminus (updatePlot janFirstDataset "P" 0 1704153600) =
      [some 0] := by
  have h := error_bar_arm_convention janFirstDataset "P" 0 1704153600
    (by decide)
  refine ⟨?_, ?_⟩
  · rw [h.1]
    decide
  · rw [h.2]
    decide

/-- C8: every daily statistic is plotted at noon of its calendar day: the
x value of the marker and error-bar traces is the day's midnight epoch
timestamp plus 43200 seconds (12 hours). -/
theorem daily_stats_noon_alignment (ds : Dataset) (param : String)
    (sd ed : Int) (h : param ∈ ds.cols) :
    chartAvgX (updatePlot ds param sd ed) =
      (dailyStats (filterRange ds.rows sd ed) param).map
        (fun s => s.day * 86400 + 43200) ∧
    chartErrX (updatePlot ds param sd ed) =
      (dailyStats (filterRange ds.rows sd ed) param).map
        (fun s => s.day * 86400 + 43200) := by
  constructor <;> simp [updatePlot, chartAvgX, chartErrX, plotTime, h]

/-- C8 witness: a record during 2024-01-01 (day 19723 since the epoch)
is summarised at 2024-01-01T12:00:00 = epoch second 1704110400. -/
theorem daily_stats_noon_alignment_witness :
    chartAvgX (updatePlot janFirstDataset "P" 1704067200 1704153599) =
      [1704110400] := by
  have h := (daily_stats_noon_alignment janFirstDataset "P" 1704067200
    1704153599 (by decide)).1
  rw [h]
  decide

/-- C10: `os.environ.get` never raises, so the `except` fallback to the
bundled key file is unreachable; when the variable is unset, credential
loading is attempted with `None`. -/
theorem service_account_fallback_unreachable (env : List (String × String)) :
    (resolveServiceAccountFile env).usedLocalFallback = false ∧
    (envGet env "GOOGLE_SERVICE_ACCOUNT_FILE" = none →
      (resolveServiceAccountFile env).file = none) := by
  refine ⟨rfl, fun h => ?_⟩
  simp [resolveServiceAccountFile, readServiceAccountVar, h]

/-- C10 witness: with an empty environment the fallback is not taken and
the resolved credential file is `None`. -/
theorem service_account_fallback_unreachable_witness :
    (resolveServiceAccountFile []).usedLocalFallback = false ∧
    (resolveServiceAccountFile []).file = none :=
  ⟨(service_account_fallback_unreachable []).1,
   (service_account_fallback_unreachable []).2 rfl⟩

/-- C1 counterexample: `pd.concat` of an empty sequence raises
`ValueError` instead of returning an empty Dataset, and a query on the
truly empty Dataset (no columns) raises `KeyError` for the default
parameter instead of returning empty results. -/
theorem assemble_empty_input_raises :
    assemble [] = Except.error "ValueError: No objects to concatenate" ∧
    updatePlot emptyDataset "+28V_Imon" 0 86400 =
      Except.error "KeyError" :=
  ⟨rfl, rfl⟩

/-- C1 amended: assembly of an empty input sequence raises; a query on a
Dataset with no rows returns an empty raw trace and empty daily
statistics without raising, provided the selected parameter is among the
Dataset's columns. -/
theorem empty_assembly_and_empty_dataset_query (ds : Dataset)
    (param : String) (sd ed : Int) :
    assemble [] = Except.error "ValueError: No objects to concatenate" ∧
    (ds.rows = [] → param ∈ ds.cols →
      updatePlot ds param sd ed =
        Except.ok
          { raw := { x := [], y := [] }
            avg := { x := [], y := [] }
            err := { x := [], y := [], errArray := [],
                     errArrayminus := [] } }) := by
  refine ⟨rfl, fun hrows h => ?_⟩
  simp [updatePlot, h, hrows, filterRange, dailyStats, dayKeys]

/-- C1 witness: a query on a dataset with column P and no rows returns
the all-empty chart. -/
theorem empty_assembly_and_empty_dataset_query_witness :
    updatePlot emptyRowsDataset "P" 0 86400 =
      Except.ok
        { raw := { x := [], y := [] }
          avg := { x := [], y := [] }
          err := { x := [], y := [], errArray := [],
                   errArrayminus := [] } } :=
  (empty_assembly_and_empty_dataset_query emptyRowsDataset "P" 0 86400).2
    rfl (by decide)

/-- C2 counterexample: with records only on day 0 and day 2, the daily
statistics contain a row for day 1 with null (NaN) aggregates — a
zero-record day is represented, not omitted. -/
theorem daily_stats_includes_empty_day :
    (dailyStats twoDayGapRows "P").map DailyStat.day = [0, 1, 2] ∧
    (dailyStats twoDayGapRows "P").map DailyStat.median =
      [some 1, none, some 2] := by
  constructor <;> decide

/-- C2 amended: the daily statistics contain one entry per calendar day
from the day of the earliest record through the day of the latest,
inclusive; a day in that span with no records appears with null (NaN)
aggregates rather than being omitted, and a day whose bin holds at least
one non-NaN value gets defined aggregates. -/
theorem daily_stats_day_span (rows : List Record) (param : String)
    (h : rows ≠ []) :
    (∀ d : Int,
      (∃ st ∈ dailyStats rows param, st.day = d) ↔
        (dayOf (minTime rows) ≤ d ∧ d ≤ dayOf (maxTime rows))) ∧
    (∀ st ∈ dailyStats rows param,
      ((∀ r ∈ rows, dayOf r.time ≠ st.day) →
        st.median = none ∧ st.p10 = none ∧ st.p90 = none) ∧
      (dayValues rows param st.day ≠ [] →
        st.median.isSome = true ∧ st.p10.isSome = true ∧
          st.p90.isSome = true)) := by
  constructor
  · intro d
    constructor
    · rintro ⟨st, hst, rfl⟩
      rcases List.mem_map.mp hst with ⟨k, hk, rfl⟩
      exact (mem_dayKeys h _).mp hk
    · intro hb
      exact ⟨mkDailyStat rows param d,
        List.mem_map.mpr ⟨d, (mem_dayKeys h d).mpr hb, rfl⟩, rfl⟩
  · intro st hst
    rcases List.mem_map.mp hst with ⟨k, hk, rfl⟩
    constructor
    · intro hno
      have hdv : dayValues rows param k = [] :=
        dayValues_eq_nil_of_no_record hno
      exact ⟨by simp [mkDailyStat, hdv, quantile_nil],
             by simp [mkDailyStat, hdv, quantile_nil],
             by simp [mkDailyStat, hdv, quantile_nil]⟩
    · intro hne
      exact ⟨quantile_isSome hne (1 / 2), quantile_isSome hne (1 / 10),
             quantile_isSome hne (9 / 10)⟩

/-- C2 witness: day 1 lies in the span of `twoDayGapRows` and has no
records, so its daily-statistics row carries null aggregates. -/
theorem daily_stats_day_span_witness :
    (mkDailyStat twoDayGapRows "P" 1).median = none ∧
    (mkDailyStat twoDayGapRows "P" 1).p10 = none ∧
    (mkDailyStat twoDayGapRows "P" 1).p90 = none :=
  ((daily_stats_day_span twoDayGapRows "P" (by decide)).2
      (mkDailyStat twoDayGapRows "P" 1) (by decide)).1 (by decide)

/-- C3 counterexample: a selected parameter that is not a column makes
`update_plot` raise `KeyError`; the exception escapes the callback. -/
theorem update_plot_unknown_param_raises :
    updatePlot colADataset "B" 0 86400 = Except.error "KeyError" := rfl

/-- C3 amended: for a selected parameter that is a column of the Dataset,
`update_plot` returns a chart for every date range, and an inverted range
yields the all-empty chart; for a parameter that is not a column, a
`KeyError` escapes `update_plot`. -/
theorem update_plot_query_boundary (ds : Dataset) (param : String)
    (sd ed : Int) :
    (param ∈ ds.cols → (updatePlot ds param sd ed).isOk = true) ∧
    (param ∉ ds.cols →
      updatePlot ds param sd ed = Except.error "KeyError") ∧
    (param ∈ ds.cols → ed < sd →
      updatePlot ds param sd ed =
        Except.ok
          { raw := { x := [], y := [] }
            avg := { x := [], y := [] }
            err := { x := [], y := [], errArray := [],
                     errArrayminus := [] } }) := by
  refine ⟨fun h => ?_, fun h => ?_, fun h hlt => ?_⟩
  · simp [updatePlot, h, Except.isOk, Except.toBool]
  · simp [updatePlot, h]
  · simp [updatePlot, h, filterRange_eq_nil_of_lt ds.rows hlt, dailyStats,
      dayKeys]

/-- C3 witness: with column A present the query succeeds, an absent
column C raises `KeyError`, and an inverted range returns the all-empty
chart. -/
theorem update_plot_query_boundary_witness :
    (updatePlot colADataset "A" 0 86400).isOk = true ∧
    updatePlot colADataset "C" 0 86400 = Except.error "KeyError" ∧
    updatePlot colADataset "A" 10 3 =
      Except.ok
        { raw := { x := [], y := [] }
          avg := { x := [], y := [] }
          err := { x := [], y := [], errArray := [],
                   errArrayminus := [] } } :=
  ⟨(update_plot_query_boundary colADataset "A" 0 86400).1 (by decide),
   (update_plot_query_boundary colADataset "C" 0 86400).2.1 (by decide),
   (update_plot_query_boundary colADataset "A" 10 3).2.2 (by decide)
     (by decide)⟩

/-- C4 counterexample: assembling a later-timestamped file before an
earlier one leaves the rows in concatenation order [5, 3], which is not
ascending — `set_index` does not sort. -/
theorem assembled_rows_not_sorted :
    assembledTimes [fileA, fileB] = [5, 3] ∧
    isMonotone (assembledTimes [fileA, fileB]) = false :=
  ⟨rfl, rfl⟩

/-- C4 amended: assembly of a non-empty input succeeds and returns the
rows of all files concatenated in input order (per-file row order
preserved); the timestamp index is not re-sorted, so it is ascending only
when the concatenation already is. -/
theorem assemble_preserves_input_order (tables : List Table)
    (h : tables ≠ []) :
    (assemble tables).isOk = true ∧
    (∀ d : Dataset, assemble tables = Except.ok d →
      d.rows = (tables.map Table.rows).flatten) := by
  cases tables with
  | nil => exact absurd rfl h
  | cons t ts =>
    refine ⟨rfl, fun d hd => ?_⟩
    have e : assemble (t :: ts) =
        Except.ok
          { cols := (t :: ts).foldl (fun a tb => unionCols a tb.cols) []
            rows := ((t :: ts).map Table.rows).flatten } := rfl
    rw [e] at hd
    cases hd
    rfl

/-- C4 witness: assembling `fileA` then `fileB` succeeds and yields
exactly their rows in that order. -/
theorem assemble_preserves_input_order_witness :
    (assemble [fileA, fileB]).isOk = true ∧
    ({ cols := ["P"]
       rows := [{ time := 5, values := [("P", 1)] },
                { time := 3, values := [("P", 2)] }] } : Dataset).rows =
      ([fileA, fileB].map Table.rows).flatten :=
  ⟨(assemble_preserves_input_order [fileA, fileB] (by decide)).1,
   (assemble_preserves_input_order [fileA, fileB] (by decide)).2 _ rfl⟩

/-- C9 counterexample: `payload_lexi_A_hk_output.csv` ends with the
housekeeping suffix and does not match the four-numeric-field pattern,
yet the local File Locator does not keep it — its glob requires two
underscore-separated fields. -/
theorem suffix_name_not_kept_locally :
    endsWithStr "hk_output.csv" "payload_lexi_A_hk_output.csv" = true ∧
    fourFieldSearch "payload_lexi_A_hk_output.csv" = false ∧
    localKeep "payload_lexi_A_hk_output.csv" = false := by
  refine ⟨by decide, by decide, by decide⟩

/-- C9 amended: the remote locator keeps exactly the names ending in
`hk_output.csv` that the four-numeric-field regex does not match (the
four-field name excluded, the single-field name kept); the local locator
additionally requires the glob `payload_lexi_*_*_hk_output.csv`, whose
match always ends with the housekeeping suffix, and it rejects the
four-field name as well. -/
theorem file_locator_keep_characterization (name : String) :
    driveKeep name =
      (endsWithStr "hk_output.csv" name && !fourFieldSearch name) ∧
    (localGlobMatch name = true →
      endsWithStr "hk_output.csv" name = true) ∧
    driveKeep "payload_lexi_1_2_3_4_hk_output.csv" = false ∧
    driveKeep "payload_lexi_A_hk_output.csv" = true ∧
    localKeep "payload_lexi_1_2_3_4_hk_output.csv" = false := by
  refine ⟨rfl, fun h => ?_, by decide, by decide, by decide⟩
  simp only [localGlobMatch, Bool.and_eq_true] at h
  have hsuf : "_hk_output.csv".data <:+ name.data :=
    List.isSuffixOf_iff_suffix.mp h.1.1.2
  have hsub : "hk_output.csv".data <:+ "_hk_output.csv".data := by decide
  exact List.isSuffixOf_iff_suffix.mpr (hsub.trans hsuf)

/-- C9 witness: a two-field name matches the local glob, hence ends with
the housekeeping suffix. -/
theorem file_locator_keep_characterization_witness :
    endsWithStr "hk_output.csv" "payload_lexi_X_Y_hk_output.csv" = true :=
  (file_locator_keep_characterization
    "payload_lexi_X_Y_hk_output.csv").2.1 (by decide)
